import Mathlib

/-!
Verification of the order-state-update core of the Restaurant Drive-Through
Assistant (`src/drive_through_assistant.py`) against its specification.

Shallow embedding conventions:
* Python dicts are association lists in insertion order; JSON values are the
  inductive `Json` below, with numbers as rationals.
* The two external library calls (`requests.post` / `response.json()` in the
  remote client, and `json.loads` in `process_user_message`) are Python
  standard-library / third-party code, not code of this repository; their
  outcome is supplied as an explicit oracle argument (`HttpOutcome`,
  `RemoteResult`), covering every outcome they can produce.
* Python exceptions are modelled with `Except` / explicit result constructors;
  a raised exception that escapes a function surfaces as `.error` / `.raised`.
* `print` diagnostics are collected into a `log : List String` field.
-/

namespace DriveThrough

/-- JSON values (the payloads exchanged with the model).  Numbers are
rationals, matching Python's exact numeric semantics for the cases the
program exercises. -/
inductive Json where
  | str (s : String)
  | num (q : ℚ)
  | bool (b : Bool)
  | null
  | arr (xs : List Json)
  | obj (kvs : List (String × Json))

namespace Json

/-- Python `key in d` / `d[key]` on a JSON object: first binding for the key
(JSON objects produced by `json.loads` bind each key once). -/
def lookup (kvs : List (String × Json)) (key : String) : Option Json :=
  match kvs with
  | [] => none
  | (k, v) :: rest => if k = key then some v else lookup rest key

end Json

/-- Python exception values relevant to the remote client: the generic
`Exception(...)` wrapper, and the unwrapped built-in exceptions that can
escape `get_response_from_messages_openrouter`. -/
inductive PyErr where
  | exc (msg : String)
  | valueError (msg : String)
  | keyError (msg : String)
  | typeError (msg : String)
  | indexError (msg : String)
deriving DecidableEq

/-- Outcome of the `requests.post` / `raise_for_status` / `response.json()`
sequence (library code, supplied as an oracle):
* `transport_error`: any `requests.exceptions.RequestException` — network
  failure, timeout, non-2xx HTTP status from `raise_for_status`, or an
  unparseable body from `response.json()`;
* `ok body`: a 2xx response whose body parsed to the JSON value `body`. -/
inductive HttpOutcome where
  | transport_error (msg : String)
  | ok (body : Json)

/-- Python `key in container` for the containers a JSON body can be.
On a dict it is key membership; on a list, element membership; on a string,
substring test; on the remaining types it raises `TypeError`. -/
def pyIn (key : String) : Json → Except PyErr Bool
  | .obj kvs => .ok (kvs.any (fun kv => decide (kv.1 = key)))
  | .arr xs =>
    .ok (xs.any (fun x => match x with | .str s => s == key | _ => false))
  | .str s => .ok (key.isEmpty || decide (2 ≤ (s.splitOn key).length))
  | _ => .error (.typeError "argument of type is not iterable")

/-- Python `len(x)` for JSON values: defined on strings, lists and dicts,
`TypeError` otherwise. -/
def pyLen : Json → Except PyErr Nat
  | .str s => .ok s.length
  | .arr xs => .ok xs.length
  | .obj kvs => .ok kvs.length
  | _ => .error (.typeError "object has no len")

/-- Python subscript `x[i]` for the shapes exercised here: dict with a string
key (`KeyError` when absent), list with a nonnegative integer index
(`IndexError` when out of range), `TypeError` otherwise. -/
def pySubscriptStr (j : Json) (key : String) : Except PyErr Json :=
  match j with
  | .obj kvs =>
    match Json.lookup kvs key with
    | some v => .ok v
    | none => .error (.keyError key)
  | _ => .error (.typeError "object is not subscriptable with str")

/-- Python subscript `x[n]` with an integer index. -/
def pySubscriptNat (j : Json) (n : Nat) : Except PyErr Json :=
  match j with
  | .arr xs =>
    match xs.get? n with
    | some v => .ok v
    | none => .error (.indexError "list index out of range")
  | _ => .error (.typeError "object is not subscriptable with int")

/-- `get_response_from_messages_openrouter` (src/drive_through_assistant.py,
lines 5-44), with the HTTP library's behaviour supplied as `outcome`.
The `try` block covers the whole body, but its handler catches only
`requests.exceptions.RequestException`: those are re-raised as
`Exception("OpenRouter API error: ...")`, while the `ValueError` raised for
a body without a usable `choices` entry — and any `KeyError`/`TypeError`
from the extraction chain — escapes unwrapped.  The request payload (api
key, model, messages, temperature) does not influence which branch runs, so
it is not a parameter of the model. -/
def get_response_from_messages_openrouter (outcome : HttpOutcome) :
    Except PyErr Json :=
  match outcome with
  | .transport_error m => .error (.exc ("OpenRouter API error: " ++ m))
  | .ok result => do
    let hasChoices ← pyIn "choices" result
    if hasChoices then do
      let choices ← pySubscriptStr result "choices"
      let n ← pyLen choices
      if n > 0 then do
        let choice0 ← pySubscriptNat choices 0
        let message ← pySubscriptStr choice0 "message"
        pySubscriptStr message "content"
      else
        .error (.valueError "Unexpected API response format")
    else
      .error (.valueError "Unexpected API response format")

/-- One entry of the conversation history: a `{"role": ..., "content": ...}`
dict.  The content is a `Json` value because the assistant entry stores the
model's `message` field verbatim, whatever JSON value it is. -/
structure ChatMessage where
  role : String
  content : Json

/-- The state of a `DriveThroughAssistant` instance: exactly the attributes
set in `__init__` (src/drive_through_assistant.py, lines 48-53).  The menu
maps item names to prices; the order maps item names to the quantity values
the model returned (verbatim `Json`). -/
structure DriveThroughAssistant where
  api_key : String
  model : String
  menu : List (String × ℚ)
  current_order : List (String × Json)
  history : List ChatMessage

/-- `DriveThroughAssistant.__init__`: stores the parameters, order and
history start empty. -/
def mkAssistant (api_key model : String) (menu : List (String × ℚ)) :
    DriveThroughAssistant :=
  ⟨api_key, model, menu, [], []⟩

/-- Outcome of the call to `get_response_from_messages_openrouter` inside
`process_user_message`, together with the outcome of the standard-library
`json.loads` on the cleaned response text (both are external library
behaviour, supplied as an oracle):
* `raised e`: the client raised `e` (see
  `get_response_from_messages_openrouter` for which `PyErr`s it produces);
* `text raw parsed`: the client returned the text `raw`; `parsed` is the
  result of `json.loads` on `raw` after code-fence stripping — `none` means
  `json.JSONDecodeError`, `some j` means the text parsed to `j`. -/
inductive RemoteResult where
  | raised (e : PyErr)
  | text (raw : String) (parsed : Option Json)

/-- What `process_user_message` hands back to its caller: either the normal
return value, the two-tuple `(order, message)`, or an exception that escapes
to the caller. -/
inductive TurnResult where
  | ret (order : List (String × Json)) (message : Json)
  | raised (e : PyErr)

/-- Full effect of one `process_user_message` call: the mutated instance,
what the call returns or raises, and the `print` diagnostics emitted. -/
structure TurnOutput where
  state : DriveThroughAssistant
  result : TurnResult
  log : List String

/-- Python `k in self.menu` (dict key membership). -/
def menuContains (menu : List (String × ℚ)) (k : String) : Bool :=
  menu.any (fun kv => kv.1 == k)

/-- `DriveThroughAssistant.process_user_message`
(src/drive_through_assistant.py, lines 98-171).

Step by step against the source:
1. the user message is appended to history;
2./3. the system prompt and message list are built (pure string/list
   operations that cannot fail and do not touch the state; no claim refers
   to their content, so they are not modelled) and the remote client is
   called — this call sits *outside* the `try`, so an exception from it
   escapes with only the user entry appended;
4. inside the `try`: `json.loads` failure hits the `JSONDecodeError`
   handler (order unchanged, fixed apology appended and returned, raw text
   printed); on a parsed dict, `message`/`order` are extracted with the
   backwards-compatibility fallback; the subsequent
   `new_order_state.items()` raises `AttributeError` whenever
   `new_order_state` is not a dict, landing in the generic
   `except Exception` handler (order unchanged, the other fixed apology);
   otherwise the order is filtered against the menu and installed. -/
def process_user_message (s : DriveThroughAssistant) (user_input : String)
    (remote : RemoteResult) : TurnOutput :=
  let s1 : DriveThroughAssistant :=
    { s with history := s.history ++ [⟨"user", .str user_input⟩] }
  match remote with
  | .raised e => ⟨s1, .raised e, []⟩
  | .text raw parsed =>
    match parsed with
    | none =>
      let apology := "Sorry, I had trouble processing that. Please try again."
      ⟨{ s1 with history := s1.history ++ [⟨"assistant", .str apology⟩] },
        .ret s1.current_order (.str apology),
        ["Error: LLM did not output valid JSON.", "Raw output: " ++ raw]⟩
    | some response_data =>
      let ai_message : Json :=
        match response_data with
        | .obj kvs => (Json.lookup kvs "message").getD (.str "Order updated.")
        | _ => .str "Order updated."
      let new_order_state : Json :=
        match response_data with
        | .obj kvs => (Json.lookup kvs "order").getD (.obj kvs)
        | _ => response_data
      match new_order_state with
      | .obj okvs =>
        let validated_order := okvs.filter (fun kv => menuContains s.menu kv.1)
        ⟨{ s1 with
            current_order := validated_order,
            history := s1.history ++ [⟨"assistant", ai_message⟩] },
          .ret validated_order ai_message, []⟩
      | _ =>
        let apology := "Sorry, I encountered an error. Please try again."
        ⟨{ s1 with history := s1.history ++ [⟨"assistant", .str apology⟩] },
          .ret s1.current_order (.str apology),
          ["Error processing message: object has no attribute items"]⟩

/-- Python `self.menu.get(item, 0)`. -/
def menuGet (menu : List (String × ℚ)) (k : String) (default : ℚ) : ℚ :=
  match menu with
  | [] => default
  | (k1, v) :: rest => if k1 = k then v else menuGet rest k default

/-- The accumulation loop of `calculate_total`: `total += price * qty` over
the order entries.  A numeric or boolean quantity accumulates (Python bools
are ints); any other quantity value makes the arithmetic raise `TypeError`
(the exact Python message depends on the operand type). -/
def totalLoop (menu : List (String × ℚ)) :
    List (String × Json) → ℚ → Except String ℚ
  | [], total => .ok total
  | (item, qty) :: rest, total =>
    match qty with
    | .num q => totalLoop menu rest (total + menuGet menu item 0 * q)
    | .bool b =>
      totalLoop menu rest (total + menuGet menu item 0 * (if b then 1 else 0))
    | _ => .error "TypeError"

/-- `DriveThroughAssistant.calculate_total`
(src/drive_through_assistant.py, lines 173-178).  Reads the state, returns
the total; assigns no attribute. -/
def calculate_total (s : DriveThroughAssistant) : Except String ℚ :=
  totalLoop s.menu s.current_order 0

/-- `DriveThroughAssistant.clear_order`
(src/drive_through_assistant.py, lines 180-183). -/
def clear_order (s : DriveThroughAssistant) : DriveThroughAssistant :=
  { s with current_order := [], history := [] }

/-- The states an assistant instance can reach: freshly constructed, then
closed under `process_user_message` (any input, any remote outcome) and
`clear_order`. -/
inductive Reachable (api_key model : String) (menu : List (String × ℚ)) :
    DriveThroughAssistant → Prop where
  | constructed : Reachable api_key model menu (mkAssistant api_key model menu)
  | step {s : DriveThroughAssistant} (input : String) (remote : RemoteResult) :
      Reachable api_key model menu s →
      Reachable api_key model menu (process_user_message s input remote).state
  | clear {s : DriveThroughAssistant} :
      Reachable api_key model menu s →
      Reachable api_key model menu (clear_order s)

/-- The numeric content of a JSON number (0 on other values); used only to
state the closed-form sum of `calculate_total`. -/
def jNum : Json → ℚ
  | .num q => q
  | _ => 0

/-- Whether a remote-client result is the single wrapped "remote call
failed" kind, `Exception("OpenRouter API error: ...")`. -/
def isWrappedRemoteError : Except PyErr Json → Bool
  | .error (.exc _) => true
  | _ => false

/-- A sample menu for concrete witnesses. -/
def sampleMenu : List (String × ℚ) := [("Big Mac", 5), ("Large Fry", 3), ("Coke", 2)]

/-- C9: `clear_order` empties the order and the history, leaves the menu,
API key and model identifier untouched (the sampling temperature is the
literal `0.1` at the call site, not instance state, so there is nothing for
`clear_order` to alter), and is idempotent. -/
theorem clear_order_exact_effect :
    ∀ s : DriveThroughAssistant,
      (clear_order s).current_order = [] ∧
      (clear_order s).history = [] ∧
      (clear_order s).menu = s.menu ∧
      (clear_order s).api_key = s.api_key ∧
      (clear_order s).model = s.model ∧
      clear_order (clear_order s) = clear_order s := by
  intro s
  refine ⟨rfl, rfl, rfl, rfl, rfl, rfl⟩

/-- C4: on a response whose cleaned text is not valid JSON
(`json.loads` raises), the order is exactly the pre-call order, the call
returns the fixed apology, the same apology is the appended assistant
history entry, and the raw text and error description go to the print log
only — the return value carries just the unchanged order and the apology. -/
theorem parse_failure_atomicity :
    ∀ (s : DriveThroughAssistant) (input raw : String),
      (process_user_message s input (.text raw none)).state.current_order
        = s.current_order ∧
      (process_user_message s input (.text raw none)).result
        = .ret s.current_order
            (.str "Sorry, I had trouble processing that. Please try again.") ∧
      (process_user_message s input (.text raw none)).state.history
        = s.history ++
          [⟨"user", .str input⟩,
           ⟨"assistant",
            .str "Sorry, I had trouble processing that. Please try again."⟩] ∧
      (process_user_message s input (.text raw none)).log
        = ["Error: LLM did not output valid JSON.", "Raw output: " ++ raw] := by
  intro s input raw
  refine ⟨rfl, rfl, ?_, rfl⟩
  simp [process_user_message]

/-- C2 counterexample: when the remote client raises (here the wrapped
transport-failure kind), `process_user_message` does not absorb the failure:
the exception propagates to the caller instead of a returned two-tuple. -/
theorem remote_failure_raises_counterexample :
    (process_user_message (mkAssistant "key" "model" sampleMenu) "hi"
      (.raised (.exc "OpenRouter API error: timeout"))).result
    = .raised (.exc "OpenRouter API error: timeout") := rfl

/-- C2 amended: failures are absorbed only once the remote call has
returned text — every such turn returns the two-tuple, whatever the parse
outcome; a raising remote call, which sits outside the `try` block,
propagates its exception to the caller unchanged. -/
theorem failure_absorption_amended :
    ∀ (s : DriveThroughAssistant) (input raw : String) (parsed : Option Json)
      (e : PyErr),
      (∃ order message,
        (process_user_message s input (.text raw parsed)).result
          = .ret order message) ∧
      (process_user_message s input (.raised e)).result = .raised e := by
  intro s input raw parsed e
  refine ⟨?_, rfl⟩
  rcases parsed with _ | j
  · exact ⟨_, _, rfl⟩
  · rcases j with s' | q | b | _ | xs | kvs
    · exact ⟨_, _, rfl⟩
    · exact ⟨_, _, rfl⟩
    · exact ⟨_, _, rfl⟩
    · exact ⟨_, _, rfl⟩
    · exact ⟨_, _, rfl⟩
    · simp only [process_user_message]
      split
      · exact ⟨_, _, rfl⟩
      · exact ⟨_, _, rfl⟩

/-- C3 counterexample: a turn whose remote call raises appends only the
user entry — history grows by 1, not by 2. -/
theorem history_growth_counterexample :
    (process_user_message (mkAssistant "key" "model" sampleMenu) "hi"
      (.raised (.exc "OpenRouter API error: boom"))).state.history.length
      = (mkAssistant "key" "model" sampleMenu).history.length + 1 ∧
    (process_user_message (mkAssistant "key" "model" sampleMenu) "hi"
      (.raised (.exc "OpenRouter API error: boom"))).state.history.length
      ≠ (mkAssistant "key" "model" sampleMenu).history.length + 2 := by
  refine ⟨rfl, ?_⟩
  intro h
  simp [process_user_message, mkAssistant] at h

/-- C3 amended: when the remote call returns text, history grows by exactly
2 — the user entry with the input, then an assistant entry; when the remote
call raises, history grows by exactly 1 — the user entry only. -/
theorem history_growth_amended :
    ∀ (s : DriveThroughAssistant) (input raw : String) (parsed : Option Json)
      (e : PyErr),
      (∃ m : Json,
        (process_user_message s input (.text raw parsed)).state.history
          = s.history ++ [⟨"user", .str input⟩, ⟨"assistant", m⟩]) ∧
      (process_user_message s input (.raised e)).state.history
        = s.history ++ [⟨"user", .str input⟩] := by
  intro s input raw parsed e
  refine ⟨?_, rfl⟩
  rcases parsed with _ | j
  · exact ⟨.str "Sorry, I had trouble processing that. Please try again.",
      by simp [process_user_message]⟩
  · rcases j with s' | q | b | _ | xs | kvs
    · exact ⟨.str "Sorry, I encountered an error. Please try again.",
        by simp [process_user_message]⟩
    · exact ⟨.str "Sorry, I encountered an error. Please try again.",
        by simp [process_user_message]⟩
    · exact ⟨.str "Sorry, I encountered an error. Please try again.",
        by simp [process_user_message]⟩
    · exact ⟨.str "Sorry, I encountered an error. Please try again.",
        by simp [process_user_message]⟩
    · exact ⟨.str "Sorry, I encountered an error. Please try again.",
        by simp [process_user_message]⟩
    · simp only [process_user_message]
      split
      · exact ⟨(Json.lookup kvs "message").getD (.str "Order updated."), by simp⟩
      · exact ⟨.str "Sorry, I encountered an error. Please try again.", by simp⟩

theorem process_menu_eq (s : DriveThroughAssistant) (input : String)
    (remote : RemoteResult) :
    (process_user_message s input remote).state.menu = s.menu := by
  rcases remote with e | ⟨raw, parsed⟩
  · rfl
  · rcases parsed with _ | j
    · rfl
    · rcases j with s' | q | b | _ | xs | kvs
      · rfl
      · rfl
      · rfl
      · rfl
      · rfl
      · simp only [process_user_message]
        split <;> rfl

theorem process_order_cases (s : DriveThroughAssistant) (input : String)
    (remote : RemoteResult) :
    (process_user_message s input remote).state.current_order
      = s.current_order ∨
    ∃ okvs : List (String × Json),
      (process_user_message s input remote).state.current_order
        = okvs.filter (fun kv => menuContains s.menu kv.1) := by
  rcases remote with e | ⟨raw, parsed⟩
  · exact Or.inl rfl
  · rcases parsed with _ | j
    · exact Or.inl rfl
    · rcases j with s' | q | b | _ | xs | kvs
      · exact Or.inl rfl
      · exact Or.inl rfl
      · exact Or.inl rfl
      · exact Or.inl rfl
      · exact Or.inl rfl
      · simp only [process_user_message]
        split
        · exact Or.inr ⟨_, rfl⟩
        · exact Or.inl rfl

/-- C1: every reachable state of an assistant instance keeps every order
key a menu key, and the order installed by a turn whose selected new-order
value is a mapping is exactly that mapping restricted to menu-known keys. -/
theorem menu_membership_invariant (api_key model : String)
    (menu : List (String × ℚ)) (s : DriveThroughAssistant)
    (h : Reachable api_key model menu s) :
    (∀ kv ∈ s.current_order, menuContains s.menu kv.1 = true) ∧
    ∀ (t : DriveThroughAssistant) (input raw : String)
      (kvs okvs : List (String × Json)),
      (Json.lookup kvs "order").getD (.obj kvs) = .obj okvs →
      (process_user_message t input
          (.text raw (some (.obj kvs)))).state.current_order
        = okvs.filter (fun kv => menuContains t.menu kv.1) := by
  constructor
  · induction h with
    | constructed =>
      intro kv hkv
      simp [mkAssistant] at hkv
    | @step s' input remote hr ih =>
      have hm := process_menu_eq s' input remote
      rcases process_order_cases s' input remote with he | ⟨okvs, he⟩
      · rw [he, hm]
        exact ih
      · rw [he, hm]
        intro kv hkv
        exact (List.mem_filter.mp hkv).2
    | clear hr ih =>
      intro kv hkv
      simp [clear_order] at hkv
  · intro t input raw kvs okvs hsel
    simp only [process_user_message]
    rw [hsel]

/-- C1 witness: from the freshly constructed state, a response ordering a
menu item and a hallucinated item installs only the menu item. -/
theorem menu_membership_invariant_witness :
    (process_user_message (mkAssistant "key" "model" sampleMenu) "hi"
      (.text "x" (some (.obj [("message", .str "ok"),
        ("order", .obj [("Big Mac", .num 2),
          ("Pizza", .num 1)])])))).state.current_order
      = [("Big Mac", Json.num 2)] := by
  have h := (menu_membership_invariant "key" "model" sampleMenu
      (mkAssistant "key" "model" sampleMenu) Reachable.constructed).2
      (mkAssistant "key" "model" sampleMenu) "hi" "x"
      [("message", Json.str "ok"),
       ("order", Json.obj [("Big Mac", Json.num 2), ("Pizza", Json.num 1)])]
      [("Big Mac", Json.num 2), ("Pizza", Json.num 1)] rfl
  rw [h]
  rfl

/-- C5 counterexample: a parsed mapping whose `order` value is not itself a
mapping (here the number 3) does not yield the `message` value ("hi there")
with a replaced order — the turn falls into the generic error handler. -/
theorem mapping_dispatch_counterexample :
    (process_user_message (mkAssistant "key" "model" sampleMenu) "hi"
      (.text "x" (some (.obj [("message", .str "hi there"),
        ("order", .num 3)])))).result
      = .ret [] (.str "Sorry, I encountered an error. Please try again.") ∧
    Json.str "Sorry, I encountered an error. Please try again."
      ≠ Json.str "hi there" := by
  refine ⟨rfl, ?_⟩
  intro h
  injection h with h'
  exact absurd h' (by decide)

/-- C5 amended: for a parsed mapping, the display message is the `message`
value when present (else "Order updated.") and the new order is the `order`
value when present (else the whole mapping) — but only when that selected
new-order value is itself a mapping is the order replaced by its
menu-filtered restriction; a non-mapping `order` value sends the turn into
the generic error handler (order unchanged, generic apology). -/
theorem mapping_dispatch_amended (s : DriveThroughAssistant)
    (input raw : String) (kvs : List (String × Json)) :
    (∀ okvs : List (String × Json),
      (Json.lookup kvs "order").getD (.obj kvs) = .obj okvs →
      (process_user_message s input (.text raw (some (.obj kvs)))).result
        = .ret (okvs.filter (fun kv => menuContains s.menu kv.1))
            ((Json.lookup kvs "message").getD (.str "Order updated.")) ∧
      (process_user_message s input
          (.text raw (some (.obj kvs)))).state.current_order
        = okvs.filter (fun kv => menuContains s.menu kv.1)) ∧
    ((∀ okvs : List (String × Json),
        (Json.lookup kvs "order").getD (.obj kvs) ≠ .obj okvs) →
      (process_user_message s input (.text raw (some (.obj kvs)))).result
        = .ret s.current_order
            (.str "Sorry, I encountered an error. Please try again.") ∧
      (process_user_message s input
          (.text raw (some (.obj kvs)))).state.current_order
        = s.current_order) := by
  constructor
  · intro okvs hsel
    simp only [process_user_message]
    rw [hsel]
    exact ⟨rfl, rfl⟩
  · intro hne
    simp only [process_user_message]
    exact ⟨trivial, trivial⟩

/-- C5 witness: a response with both fields and a mapping `order` value
replaces the order with the filtered mapping and surfaces the message. -/
theorem mapping_dispatch_amended_witness :
    (process_user_message (mkAssistant "key" "model" sampleMenu) "hi"
      (.text "x" (some (.obj [("message", .str "Added Big Mac"),
        ("order", .obj [("Big Mac", .num 1), ("Pizza", .num 2)])])))).result
      = .ret [("Big Mac", Json.num 1)] (.str "Added Big Mac") := by
  have h := (mapping_dispatch_amended (mkAssistant "key" "model" sampleMenu)
      "hi" "x"
      [("message", Json.str "Added Big Mac"),
       ("order", Json.obj [("Big Mac", Json.num 1), ("Pizza", Json.num 2)])]).1
      [("Big Mac", Json.num 1), ("Pizza", Json.num 2)] rfl
  rw [h.1]
  rfl

/-- C6 counterexample: a non-mapping parsed response (a JSON array) is not
installed as the new order with the default message — the turn falls into
the generic error handler and leaves the order unchanged. -/
theorem non_mapping_counterexample :
    (process_user_message (mkAssistant "key" "model" sampleMenu) "hi"
      (.text "x" (some (.arr [.str "Big Mac"])))).result
      = .ret [] (.str "Sorry, I encountered an error. Please try again.") ∧
    Json.str "Sorry, I encountered an error. Please try again."
      ≠ Json.str "Order updated." := by
  refine ⟨rfl, ?_⟩
  intro h
  injection h with h'
  exact absurd h' (by decide)

/-- C6 amended: a successfully parsed response whose top-level value is not
a mapping makes `new_order_state.items()` raise `AttributeError`, which the
generic handler absorbs: order unchanged, generic apology returned and
appended to history. -/
theorem non_mapping_amended (s : DriveThroughAssistant) (input raw : String)
    (j : Json) (hj : ∀ kvs : List (String × Json), j ≠ .obj kvs) :
    (process_user_message s input (.text raw (some j))).state.current_order
      = s.current_order ∧
    (process_user_message s input (.text raw (some j))).result
      = .ret s.current_order
          (.str "Sorry, I encountered an error. Please try again.") ∧
    (process_user_message s input (.text raw (some j))).state.history
      = s.history ++ [⟨"user", .str input⟩,
          ⟨"assistant",
           .str "Sorry, I encountered an error. Please try again."⟩] := by
  rcases j with s' | q | b | _ | xs | kvs
  · exact ⟨rfl, rfl, by simp [process_user_message]⟩
  · exact ⟨rfl, rfl, by simp [process_user_message]⟩
  · exact ⟨rfl, rfl, by simp [process_user_message]⟩
  · exact ⟨rfl, rfl, by simp [process_user_message]⟩
  · exact ⟨rfl, rfl, by simp [process_user_message]⟩
  · exact absurd rfl (hj kvs)

/-- C6 witness: a bare JSON array response triggers the generic error path
on the fresh state. -/
theorem non_mapping_amended_witness :
    (process_user_message (mkAssistant "key" "model" sampleMenu) "hi"
      (.text "x" (some (.arr [])))).result
      = .ret [] (.str "Sorry, I encountered an error. Please try again.") :=
  (non_mapping_amended (mkAssistant "key" "model" sampleMenu) "hi" "x"
    (.arr []) (fun _ h => Json.noConfusion h)).2.1

/-- C7 counterexample: a 2xx body without a `choices` entry makes the
client raise `ValueError("Unexpected API response format")` — not the
wrapped "OpenRouter API error" kind that transport failures produce, so the
three failure modes are not normalized to a single error kind. -/
theorem remote_error_normalization_counterexample :
    get_response_from_messages_openrouter (.ok (.obj [("error", .str "quota")]))
      = .error (.valueError "Unexpected API response format") ∧
    isWrappedRemoteError (get_response_from_messages_openrouter
      (.ok (.obj [("error", .str "quota")]))) = false ∧
    isWrappedRemoteError (get_response_from_messages_openrouter
      (.transport_error "timeout")) = true :=
  ⟨rfl, rfl, rfl⟩

/-- C7 amended: network/transport/HTTP failures (every
`requests.exceptions.RequestException`) are normalized to the single
wrapped kind `Exception("OpenRouter API error: ...")`; a body lacking the
expected `choices` structure — no such entry, or an empty choices list —
instead raises the distinct, unwrapped
`ValueError("Unexpected API response format")`. -/
theorem remote_error_normalization_amended :
    ∀ (m : String) (body : Json),
      get_response_from_messages_openrouter (.transport_error m)
        = .error (.exc ("OpenRouter API error: " ++ m)) ∧
      (pyIn "choices" body = .ok false →
        get_response_from_messages_openrouter (.ok body)
          = .error (.valueError "Unexpected API response format")) ∧
      (∀ choices : Json, pyIn "choices" body = .ok true →
        pySubscriptStr body "choices" = .ok choices →
        pyLen choices = .ok 0 →
        get_response_from_messages_openrouter (.ok body)
          = .error (.valueError "Unexpected API response format")) := by
  intro m body
  refine ⟨rfl, ?_, ?_⟩
  · intro h1
    simp only [get_response_from_messages_openrouter]
    rw [h1]
    rfl
  · intro choices h1 h2 h3
    simp only [get_response_from_messages_openrouter]
    rw [h1]
    show (do
      let choices ← pySubscriptStr body "choices"
      let n ← pyLen choices
      if n > 0 then do
        let choice0 ← pySubscriptNat choices 0
        let message ← pySubscriptStr choice0 "message"
        pySubscriptStr message "content"
      else
        Except.error (PyErr.valueError "Unexpected API response format"))
      = Except.error (PyErr.valueError "Unexpected API response format")
    rw [h2]
    show (do
      let n ← pyLen choices
      if n > 0 then do
        let choice0 ← pySubscriptNat choices 0
        let message ← pySubscriptStr choice0 "message"
        pySubscriptStr message "content"
      else
        Except.error (PyErr.valueError "Unexpected API response format"))
      = Except.error (PyErr.valueError "Unexpected API response format")
    rw [h3]
    rfl

/-- C7 witness: a transport failure and a choiceless body at concrete
inputs, exercising both amended branches. -/
theorem remote_error_normalization_amended_witness :
    get_response_from_messages_openrouter (.transport_error "connection reset")
      = .error (.exc "OpenRouter API error: connection reset") ∧
    get_response_from_messages_openrouter (.ok (.obj [("foo", .num 1)]))
      = .error (.valueError "Unexpected API response format") :=
  ⟨(remote_error_normalization_amended "connection reset"
      (.obj [("foo", .num 1)])).1,
   (remote_error_normalization_amended "connection reset"
      (.obj [("foo", .num 1)])).2.1 rfl⟩

theorem totalLoop_eq_sum (menu : List (String × ℚ)) :
    ∀ (l : List (String × Json)) (total : ℚ),
      (∀ kv ∈ l, ∃ q : ℚ, kv.2 = Json.num q) →
      totalLoop menu l total
        = .ok (total
            + (l.map (fun kv => menuGet menu kv.1 0 * jNum kv.2)).sum) := by
  intro l
  induction l with
  | nil =>
    intro total _
    simp [totalLoop]
  | cons kv rest ih =>
    intro total h
    obtain ⟨q, hq⟩ := h kv (List.mem_cons_self _ _)
    rcases kv with ⟨item, qty⟩
    simp only at hq
    subst hq
    rw [totalLoop, ih _ (fun kv hkv => h kv (List.mem_cons_of_mem _ hkv))]
    simp [jNum, add_assoc]

/-- C8: on any order whose quantities are numbers, `calculate_total`
returns the sum over the order entries of the menu price (0 when the item
is absent from the menu) times the quantity; the result is invariant under
reordering the order entries.  The method reads the state and assigns no
attribute, which the embedding reflects by returning no successor state. -/
theorem calculate_total_correct (s : DriveThroughAssistant)
    (h : ∀ kv ∈ s.current_order, ∃ q : ℚ, kv.2 = Json.num q) :
    calculate_total s
      = .ok ((s.current_order.map
          (fun kv => menuGet s.menu kv.1 0 * jNum kv.2)).sum) ∧
    ∀ t : DriveThroughAssistant, t.menu = s.menu →
      t.current_order.Perm s.current_order →
      calculate_total t = calculate_total s := by
  constructor
  · rw [calculate_total, totalLoop_eq_sum s.menu _ 0 h, zero_add]
  · intro t hm hp
    have ht : ∀ kv ∈ t.current_order, ∃ q : ℚ, kv.2 = Json.num q :=
      fun kv hkv => h kv (hp.subset hkv)
    rw [calculate_total, calculate_total, totalLoop_eq_sum _ _ 0 ht,
      totalLoop_eq_sum _ _ 0 h, hm]
    have hsum := List.Perm.sum_eq
      (hp.map (fun kv => menuGet s.menu kv.1 0 * jNum kv.2))
    rw [hsum]

/-- C8 witness: the spec example — order of 2 Big Macs and 1 Coke against
prices 5 and 2 totals 12, and swapping the two entries gives the same. -/
theorem calculate_total_correct_witness :
    calculate_total
      { api_key := "key", model := "model", menu := sampleMenu,
        current_order := [("Big Mac", .num 2), ("Coke", .num 1)],
        history := [] } = .ok 12 ∧
    calculate_total
      { api_key := "key", model := "model", menu := sampleMenu,
        current_order := [("Coke", .num 1), ("Big Mac", .num 2)],
        history := [] }
      = calculate_total
      { api_key := "key", model := "model", menu := sampleMenu,
        current_order := [("Big Mac", .num 2), ("Coke", .num 1)],
        history := [] } := by
  have hnum : ∀ kv ∈ ([("Big Mac", Json.num 2), ("Coke", Json.num 1)] :
      List (String × Json)), ∃ q : ℚ, kv.2 = Json.num q := by
    intro kv hkv
    simp only [List.mem_cons, List.not_mem_nil, or_false] at hkv
    rcases hkv with rfl | rfl
    · exact ⟨2, rfl⟩
    · exact ⟨1, rfl⟩
  have h := calculate_total_correct
    { api_key := "key", model := "model", menu := sampleMenu,
      current_order := [("Big Mac", .num 2), ("Coke", .num 1)],
      history := [] } hnum
  refine ⟨?_, ?_⟩
  · rw [h.1]
    simp [sampleMenu, menuGet, jNum]
    norm_num
  · exact h.2 _ rfl (List.Perm.swap _ _ _)

/-- C10: the menu-key filter keeps quantity values exactly as the model
returned them — the installed order is the plain key filter of the model's
`order` mapping, so any menu-known key keeps its value verbatim, with no
positivity or integrality check. -/
theorem quantities_accepted_verbatim (s : DriveThroughAssistant)
    (input raw : String) (kvs okvs : List (String × Json))
    (hsel : Json.lookup kvs "order" = some (.obj okvs)) :
    (process_user_message s input
        (.text raw (some (.obj kvs)))).state.current_order
      = okvs.filter (fun kv => menuContains s.menu kv.1) ∧
    ∀ (k : String) (v : Json), (k, v) ∈ okvs → menuContains s.menu k = true →
      (k, v) ∈ (process_user_message s input
        (.text raw (some (.obj kvs)))).state.current_order := by
  have hmain : (process_user_message s input
      (.text raw (some (.obj kvs)))).state.current_order
      = okvs.filter (fun kv => menuContains s.menu kv.1) := by
    simp only [process_user_message]
    rw [hsel]
    rfl
  refine ⟨hmain, ?_⟩
  intro k v hmem hk
  rw [hmain]
  exact List.mem_filter.mpr ⟨hmem, hk⟩

/-- C10 witness: a model response giving "Big Mac" the quantity -3 installs
-3 verbatim into the order. -/
theorem quantities_accepted_verbatim_witness :
    ("Big Mac", Json.num (-3)) ∈
      (process_user_message (mkAssistant "key" "model" sampleMenu) "hi"
        (.text "x" (some (.obj [("order",
          .obj [("Big Mac", .num (-3))])])))).state.current_order :=
  (quantities_accepted_verbatim (mkAssistant "key" "model" sampleMenu)
    "hi" "x" [("order", Json.obj [("Big Mac", Json.num (-3))])]
    [("Big Mac", Json.num (-3))] rfl).2 "Big Mac" (Json.num (-3))
    (List.mem_singleton.mpr rfl) rfl

end DriveThrough
